import Mathlib

/-!
Verification of the threat-intelligence aggregation and monitoring engine:
a shallow embedding of the orchestrator (`app/services/ioc_service.py`),
the template adapter (`app/services/dynamic_api_client.py`) and the
watchlist scheduler (`app/services/scheduler.py`), with theorems about
risk aggregation, source eligibility, scheduling gates, alerting and
failure handling.

Conventions of the embedding:
* Python floats are modelled as rationals (`ℚ`); the risk scores involved
  are small decimal literals, for which rational arithmetic is exact.
* Timestamps are rationals counting minutes; `timedelta(minutes=n)` is the
  rational `n`.
* Nullable values (`Optional[...]`, nullable columns) are `Option`.
* JSON values are the inductive `Json` below.
-/

/-- A JSON value, as produced by `response.json()` and consumed by the
response-extraction paths of the dynamic API client. -/
inductive Json where
  | null : Json
  | bool (b : Bool) : Json
  | num (q : ℚ) : Json
  | str (s : String) : Json
  | arr (elems : List Json) : Json
  | obj (fields : List (String × Json)) : Json

/-- Python truthiness of a JSON value (`bool(x)` for the corresponding
Python value): `None`, `False`, `0`, `""`, `[]`, `{}` are falsy. -/
def Json.truthy : Json → Bool
  | .null => false
  | .bool b => b
  | .num q => q != 0
  | .str s => s != ""
  | .arr l => !l.isEmpty
  | .obj l => !l.isEmpty

/-- Python `str.lower()`, written over the character list so that concrete
instances reduce in the kernel (`String.toLower` itself does not). -/
def pyLower (s : String) : String := ⟨s.data.map Char.toLower⟩

/-- Python `str.upper()`. -/
def pyUpper (s : String) : String := ⟨s.data.map Char.toUpper⟩

/-- Python `str.strip()`: drop leading and trailing whitespace. -/
def pyStrip (s : String) : String :=
  ⟨((s.data.dropWhile Char.isWhitespace).reverse.dropWhile Char.isWhitespace).reverse⟩

/-- Schema `IOCSourceResult` (app/schemas/ioc.py): the outcome of one source for
one query. -/
structure IOCSourceResult where
  source : String
  status : String
  risk_score : Option ℚ := none
  description : Option String := none
  raw : Option Json := none

/-- Schema `IOCQueryRequest` (app/schemas/ioc.py). -/
structure IOCQueryRequest where
  ioc_type : String
  ioc_value : String
  sources : Option (List String) := none
deriving DecidableEq, Repr

/-- Schema `IOCQueryResponse` (app/schemas/ioc.py); `queried_at` is a
timestamp in minutes. -/
structure IOCQueryResponse where
  ioc_type : String
  ioc_value : String
  overall_risk : Option String := none
  queried_sources : List IOCSourceResult
  queried_at : ℚ

namespace IOCService

/-- Model of `IOCService._calculate_overall_risk` (app/services/ioc_service.py,
lines 33-59), translated clause by clause: keep only results that are
`success` with a non-null `risk_score`; if none remain, report `"unknown"`
when some result has a non-`success` status and `None` otherwise; else
average the scores and bucket the mean at 0.8 / 0.5 / 0.2. -/
def calculate_overall_risk (results : List IOCSourceResult) : Option String :=
  if results.isEmpty then none
  else
    let valid_results := results.filter (fun r => r.risk_score.isSome && r.status == "success")
    if valid_results.isEmpty then
      let non_success_results := results.filter (fun r => r.status != "success")
      if non_success_results.isEmpty then none else some "unknown"
    else
      let risk_scores := valid_results.filterMap (fun r => r.risk_score)
      let avg_score := risk_scores.sum / (risk_scores.length : ℚ)
      if avg_score ≥ 0.8 then some "high"
      else if avg_score ≥ 0.5 then some "medium"
      else if avg_score ≥ 0.2 then some "low"
      else some "clean"

/-- The successful numeric signals of a result list: the scores selected by the code lines for
`valid_results`/`risk_scores` (status `success`, score
non-null). -/
def success_signals (results : List IOCSourceResult) : List ℚ :=
  (results.filter (fun r => r.risk_score.isSome && r.status == "success")).filterMap
    (fun r => r.risk_score)

end IOCService

/-- Modelled from the spec: the four-bucket verdict mapping of a mean
signal, with inclusive boundaries (`>=0.8 → high`, `>=0.5 → medium`,
`>=0.2 → low`, else `clean`), used to compare the aggregation of the
orchestrator against the wording of the spec. -/
def spec_risk_bucket (q : ℚ) : String :=
  if q ≥ 0.8 then "high"
  else if q ≥ 0.5 then "medium"
  else if q ≥ 0.2 then "low"
  else "clean"

/-- Model of `AuthenticationType` (app/models/api_source.py); the Python value
`"none"` is spelled `none_` here. -/
inductive AuthenticationType where
  | api_key
  | basic_auth
  | bearer_token
  | oauth
  | none_
deriving DecidableEq, Repr

/-- Model of `UpdateMode` (app/models/api_source.py). -/
inductive UpdateMode where
  | manual
  | auto
deriving DecidableEq, Repr

/-- A request-body template (`request_config["body_template"]`): either a
literal string or a one-level JSON object. -/
inductive BodyTemplate where
  | strT (s : String)
  | dictT (fields : List (String × Json))

/-- The `request_config` JSON column of an `APISource`, with the keys the
dynamic client reads (defaults are applied at the `.get` call sites, as in
the source). -/
structure RequestConfig where
  endpoint_template : Option String := none
  headers : List (String × String) := []
  query_params : List (String × String) := []
  body_template : Option BodyTemplate := none
  method : Option String := none

/-- The `response_config` JSON column of an `APISource`. -/
structure ResponseConfig where
  risk_score_path : Option String := none
  status_path : Option String := none
  data_path : Option String := none

/-- Model `APISource` (app/models/api_source.py), restricted to the columns
the engine reads. A null `supported_ioc_types` column and an empty list are
both falsy in Python, so both are `[]`. -/
structure APISource where
  id : String
  name : String
  display_name : String
  base_url : String
  supported_ioc_types : List String := []
  authentication_type : AuthenticationType
  request_config : Option RequestConfig := none
  response_config : Option ResponseConfig := none
  is_active : Bool := true

/-- Model `APIKey` (app/models/api_source.py), restricted to the columns the
engine reads; secret columns hold ciphertext. `last_used` is a timestamp in
minutes. -/
structure APIKey where
  id : String
  user_id : String
  api_source_id : String
  api_key : String
  username : Option String := none
  password : Option String := none
  api_url : Option String := none
  is_active : Bool := true
  update_mode : UpdateMode := .manual
  last_used : Option ℚ := none

/-- A concrete outbound HTTP request as assembled by
`DynamicAPIClient.query`: method, URL, headers, query parameters, body and
basic-auth pair. -/
structure HttpRequest where
  method : String
  url : String
  headers : List (String × String)
  params : Option (List (String × String))
  body : Option BodyTemplate
  auth : Option (String × String)
  timeout : ℕ

/-- The possible outcomes of one `requests.request` call followed by
`raise_for_status`/`response.json()`, as observed by the client:
a timeout (`requests.exceptions.Timeout`), another request exception
(connection/DNS failure, redirect loop, ...), or an HTTP response with a
status code and a body that either parses as JSON (`Sum.inl`) or does not
(`Sum.inr` holds the raw text). -/
inductive HttpOutcome where
  | timeout
  | requestError (msg : String)
  | response (code : ℕ) (body : Json ⊕ String)

/-- The dict returned by `DynamicAPIClient.query`; absent keys and keys set
to `None` are conflated as `none` because every consumer reads them with
`.get`. -/
structure QueryOutcome where
  source : String
  ioc_type : String
  ioc_value : String
  status : String
  risk_score : Option Json := none
  data : Option Json := none
  raw : Option Json := none
  error : Option String := none
  http_status : Option ℕ := none

/-- Model of `DynamicAPIClient` (app/services/dynamic_api_client.py): constructor
arguments. -/
structure DynamicAPIClient where
  api_source : APISource
  api_key : String
  username : Option String := none
  password : Option String := none
  api_url_override : Option String := none

namespace DynamicAPIClient

/-- Model of `self.base_url = api_url_override or api_source.base_url` (Python `or`:
a null or empty override falls back to the base URL of the descriptor). -/
def base_url (c : DynamicAPIClient) : String :=
  match c.api_url_override with
  | some s => if s == "" then c.api_source.base_url else s
  | none => c.api_source.base_url

/-- Model of `self.request_config = api_source.request_config or {}`. -/
def requestConfig (c : DynamicAPIClient) : RequestConfig :=
  c.api_source.request_config.getD {}

/-- Model of `self.response_config = api_source.response_config or {}`. -/
def responseConfig (c : DynamicAPIClient) : ResponseConfig :=
  c.api_source.response_config.getD {}

/-- Model of `DynamicAPIClient._build_url`: substitute the IOC placeholders into the
endpoint template and append to the base URL stripped of trailing
slashes. -/
def build_url (c : DynamicAPIClient) (ioc_type ioc_value : String) : String :=
  let endpoint_template := c.requestConfig.endpoint_template.getD "/{ioc_type}/{ioc_value}"
  let endpoint := (endpoint_template.replace "{ioc_type}" ioc_type).replace "{ioc_value}" ioc_value
  (c.base_url.dropRightWhile (· == '/')) ++ endpoint

/-- Model of `DynamicAPIClient._build_headers`: substitute `{api_key}` always and
`{username}`/`{password}` only when the credential part is set and
non-empty (Python truthiness of `self.username`/`self.password`). -/
def build_headers (c : DynamicAPIClient) : List (String × String) :=
  c.requestConfig.headers.map (fun kv =>
    let value := kv.2.replace "{api_key}" c.api_key
    let value := match c.username with
      | some u => if u == "" then value else value.replace "{username}" u
      | none => value
    let value := match c.password with
      | some p => if p == "" then value else value.replace "{password}" p
      | none => value
    (kv.1, value))

/-- Model of `DynamicAPIClient._build_params`. -/
def build_params (c : DynamicAPIClient) (ioc_type ioc_value : String) :
    List (String × String) :=
  c.requestConfig.query_params.map (fun kv =>
    let value := ((kv.2.replace "{api_key}" c.api_key).replace "{ioc_type}" ioc_type).replace
      "{ioc_value}" ioc_value
    let value := match c.username with
      | some u => if u == "" then value else value.replace "{username}" u
      | none => value
    let value := match c.password with
      | some p => if p == "" then value else value.replace "{password}" p
      | none => value
    (kv.1, value))

/-- Model of `DynamicAPIClient._build_body`: a falsy template yields no body; a
string template is substituted (the subsequent `json.loads` / `{"value":
...}` wrapping is carried as the substituted string, since no consumer in
the engine inspects the parsed body); a dict template is substituted in its
top-level string values only. -/
def build_body (c : DynamicAPIClient) (ioc_type ioc_value : String) :
    Option BodyTemplate :=
  match c.requestConfig.body_template with
  | none => none
  | some (.strT s) =>
    if s == "" then none
    else
      let body_str := ((s.replace "{api_key}" c.api_key).replace "{ioc_type}" ioc_type).replace
        "{ioc_value}" ioc_value
      let body_str := match c.username with
        | some u => if u == "" then body_str else body_str.replace "{username}" u
        | none => body_str
      let body_str := match c.password with
        | some p => if p == "" then body_str else body_str.replace "{password}" p
        | none => body_str
      some (.strT body_str)
  | some (.dictT fields) =>
    if fields.isEmpty then none
    else
      some (.dictT (fields.map (fun kv =>
        match kv.2 with
        | .str s => (kv.1, Json.str (((s.replace "{api_key}" c.api_key).replace
            "{ioc_type}" ioc_type).replace "{ioc_value}" ioc_value))
        | v => (kv.1, v))))

end DynamicAPIClient

/-- The registry state the orchestrator reads: the `api_keys` and
`api_sources` tables. -/
structure Db where
  keys : List APIKey
  sources : List APISource

/-- The persisted row written for one `IOCQuery` record
(app/models/ioc_query.py), restricted to the fields `_save_query_to_db`
sets (the random UUID id is not modelled). -/
structure IOCQueryRow where
  user_id : String
  ioc_type : String
  ioc_value : String
  query_date : ℚ
  overall_risk : Option String
  risk_score : Option ℚ
  status : String

/-- The persisted row written for one `ThreatIntelligenceData` record. -/
structure ThreatDataRow where
  source_api : String
  status : String
  risk_score : Option ℚ
  description : Option String
  confidence_score : Option ℚ

/-- A row staged or committed by `_save_query_to_db`. -/
inductive DbRow where
  | queryRow (q : IOCQueryRow)
  | threatRow (t : ThreatDataRow)

/-- A SQLAlchemy session as `_save_query_to_db` uses it: rows already
committed by earlier transactions, and rows staged (`add`/`flush`) in the
open transaction. `commit` moves pending to committed; `rollback` discards
pending. -/
structure DbSession where
  committed : List DbRow
  pending : List DbRow

/-- The collaborators of one orchestrated query: the registry tables, the
session, the secret store (`decrypt_value`, which fails closed to `""`),
the network, the two cache tiers (as the already-parsed lookup results for
the key of this query), the clock, and the index of the database operation
inside `_save_query_to_db` that raises (if any). -/
structure Env where
  db : Db
  dbSession : DbSession := ⟨[], []⟩
  decrypt : String → String
  http : HttpRequest → HttpOutcome
  redisGet : Option IOCQueryResponse := none
  memGet : Option IOCQueryResponse := none
  now : ℚ := 0
  saveFail : Option ℕ := none

/-- First value of an object field, as `jsonpath_ng` finds it for a plain
key segment. -/
def jsonField (fields : List (String × Json)) (key : String) : Option Json :=
  (fields.find? (fun kv => kv.1 == key)).map (fun kv => kv.2)

/-- Descend a dotted key path through JSON objects; a segment that does not
match yields `none`. -/
def jsonDescend : Json → List String → Option Json
  | d, [] => some d
  | .obj fields, key :: rest =>
    match jsonField fields key with
    | some v => jsonDescend v rest
    | none => none
  | _, _ :: _ => none

namespace DynamicAPIClient

/-- Model of `DynamicAPIClient._extract_value`: JSONPath extraction, modelled for the
dotted key paths the descriptors use (`$.a.b` or `a.b`); a path that
matches nothing — and any path shape outside this fragment, which in the
source raises inside `jsonpath_ng` and is caught — yields `none`. -/
def extract_value (data : Json) (json_path : String) : Option Json :=
  if json_path == "" then none
  else
    let segs := json_path.splitOn "."
    let segs := match segs with
      | "$" :: rest => rest
      | s => s
    jsonDescend data segs

end DynamicAPIClient

/-- The dict built by `DynamicAPIClient._parse_response`. -/
structure ParsedResponse where
  raw : Option Json := none
  risk_score : Option Json := none
  status_value : Option Json := none
  data : Option Json := none

namespace DynamicAPIClient

/-- Model of `DynamicAPIClient._parse_response`: `raw` is the whole body;
`risk_score` and the extracted status come from their configured paths when
those are set and non-empty; `data` comes from `data_path` (default `"$"`),
falling back to the whole body when the extraction result is falsy. -/
def parse_response (c : DynamicAPIClient) (response_data : Json) : ParsedResponse :=
  let risk_score := match c.responseConfig.risk_score_path with
    | some p => if p == "" then none else extract_value response_data p
    | none => none
  let status_value := match c.responseConfig.status_path with
    | some p => if p == "" then none else extract_value response_data p
    | none => none
  let data_path := c.responseConfig.data_path.getD "$"
  let data :=
    if data_path == "" then none
    else some (match extract_value response_data data_path with
      | some j => if j.truthy then j else response_data
      | none => response_data)
  { raw := some response_data, risk_score, status_value, data }

/-- The message of the `requests.exceptions.HTTPError` that
`raise_for_status` raises for an HTTP status code in the 400-599 range. -/
def httpErrorMessage (code : ℕ) (url : String) : String :=
  toString code ++ " Error for url: " ++ url

/-- Model of `DynamicAPIClient.query` (app/services/dynamic_api_client.py, lines
133-207): build the request, perform it (`http` gives the behaviour of the
network), and return a result dict; a timeout and every request exception
are caught and surfaced as `status` `"timeout"` / `"error"`, a status code
in the 400-599 range (a client or server error — the only codes
`raise_for_status` raises for) raises `HTTPError` inside the `try` and is
surfaced as `"error"`, and otherwise the body (wrapped as `{"text": ...}`
when it is not valid JSON) is path-extracted and surfaced as
`"success"`. -/
def query (c : DynamicAPIClient) (http : HttpRequest → HttpOutcome)
    (ioc_type ioc_value : String) (timeout : ℕ := 30) : QueryOutcome :=
  let method := pyUpper (c.requestConfig.method.getD "GET")
  let url := c.build_url ioc_type ioc_value
  let headers := c.build_headers
  let params := if method == "GET" then some (c.build_params ioc_type ioc_value) else none
  let body :=
    if method == "POST" || method == "PUT" || method == "PATCH" then
      c.build_body ioc_type ioc_value
    else none
  let auth :=
    if c.api_source.authentication_type == .basic_auth then
      match c.username, c.password with
      | some u, some p => if u == "" || p == "" then none else some (u, p)
      | _, _ => none
    else none
  let headers :=
    if c.api_source.authentication_type == .bearer_token then
      (headers.filter (fun kv => kv.1 != "Authorization")) ++
        [("Authorization", "Bearer " ++ c.api_key)]
    else headers
  match http { method, url, headers, params, body, auth, timeout } with
  | .timeout =>
    { source := c.api_source.name, ioc_type, ioc_value, status := "timeout",
      error := some "Request timeout" }
  | .requestError e =>
    { source := c.api_source.name, ioc_type, ioc_value, status := "error",
      error := some e }
  | .response code body =>
    if 400 ≤ code ∧ code < 600 then
      { source := c.api_source.name, ioc_type, ioc_value, status := "error",
        error := some (httpErrorMessage code url) }
    else
      let response_data := match body with
        | .inl j => j
        | .inr text => .obj [("text", .str text)]
      let parsed := c.parse_response response_data
      { source := c.api_source.name, ioc_type, ioc_value, status := "success",
        risk_score := parsed.risk_score, data := parsed.data, raw := parsed.raw,
        http_status := some code }

end DynamicAPIClient

/-- Python `float(x)` on an extracted JSON value: numbers pass through,
booleans coerce; anything else raises `ValueError`/`TypeError`, modelled as
`none` (Python would also parse a purely numeric string — descriptors in
the repository extract numeric score fields, so that case is not
modelled). -/
def pyFloat : Json → Option ℚ
  | .num q => some q
  | .bool b => some (if b then 1 else 0)
  | _ => none

/-- Python `str(x)` for the values that reach description building;
containers are abbreviated (their exact rendering is not used by any
property). -/
def pyStr : Json → String
  | .str s => s
  | .num q => toString q
  | .bool b => if b then "True" else "False"
  | .null => "None"
  | .arr _ => "[...]"
  | .obj _ => "\x7b...\x7d"

namespace IOCService

/-- Model of `IOCService._get_risk_score_from_level` (app/services/ioc_service.py,
lines 26-31). -/
def get_risk_score_from_level (risk_level : Option String) : Option ℚ :=
  match risk_level with
  | none => none
  | some s =>
    if s == "" then none
    else ([("high", (0.9 : ℚ)), ("medium", 0.6), ("low", 0.3), ("clean", 0.1),
      ("unknown", 0.5)]).lookup (pyLower s)

/-- Model of `IOCService._get_active_api_keys` (app/services/ioc_service.py, lines
61-86): join `api_keys` with `api_sources`, keep rows where both halves are
active, restrict to `update_mode == auto` when `auto_mode_only`, and apply
the optional name filter (the names given by the caller are lower-cased; stored names
are matched as stored). -/
def get_active_api_keys (db : Db) (sources : Option (List String) := none)
    (auto_mode_only : Bool := false) : List (APIKey × APISource) :=
  let joined := db.keys.flatMap (fun k =>
    (db.sources.filter (fun s => s.id == k.api_source_id)).map (fun s => (k, s)))
  let q := joined.filter (fun p => p.1.is_active && p.2.is_active)
  let q := if auto_mode_only then q.filter (fun p => p.1.update_mode == .auto) else q
  match sources with
  | some l =>
    if l.isEmpty then q
    else
      let source_names := l.map pyLower
      q.filter (fun p => source_names.contains p.2.name)
  | none => q

/-- Model of `IOCService._get_sources_without_auth` (lines 88-105): active sources
whose authentication type is `none`, under the same optional name
filter. -/
def get_sources_without_auth (db : Db) (sources : Option (List String) := none) :
    List APISource :=
  let q := db.sources.filter (fun s =>
    s.is_active && s.authentication_type == .none_)
  match sources with
  | some l =>
    if l.isEmpty then q
    else
      let source_names := l.map pyLower
      q.filter (fun s => source_names.contains s.name)
  | none => q

/-- The Kaspersky zone-name table of `_query_single_source` (lines
204-212). -/
def kaspersky_zone_to_score : List (String × ℚ) :=
  [("Red", 0.9), ("Yellow", 0.6), ("Green", 0.3), ("White", 0.1), ("Grey", 0.1)]

/-- The description-building block shared by both per-source query paths
(lines 214-224): collect `data["description"]` and `data["status"]` when
`data` is a dict, join with `" | "`, and fall back to the generic line when
the result is falsy. -/
def build_source_description (data : Option Json) (status : String) : String :=
  let description : Option String :=
    match data with
    | some (.obj fields) =>
      let parts :=
        (match jsonField fields "description" with
          | some j => [pyStr j]
          | none => []) ++
        (match jsonField fields "status" with
          | some j => ["Status: " ++ pyStr j]
          | none => [])
      if parts.isEmpty then none else some (String.intercalate " | " parts)
    | _ => none
  match description with
  | some d => if d == "" then "Query completed with status: " ++ status else d
  | none => "Query completed with status: " ++ status

/-- The body of `_query_single_source` after credential decryption (lines
181-232): build the dynamic client, perform the query, apply the Kaspersky
zone mapping, convert the risk signal with `float(...)` (a conversion
failure is an exception caught by the surrounding handler, lines 234-242),
and assemble the `IOCSourceResult`. The `last_used` timestamp update
touches a column outside the modelled row set and is omitted. -/
def query_single_source_exec (env : Env) (api_key : APIKey) (api_source : APISource)
    (decrypted_key : String) (ioc_type ioc_value : String) : IOCSourceResult :=
  let decrypted_username := match api_key.username with
    | some u =>
      if pyStrip u == "" then none
      else
        let du := env.decrypt u
        if pyStrip du == "" then none else some du
    | none => none
  let decrypted_password := match api_key.password with
    | some p =>
      if pyStrip p == "" then none
      else
        let dp := env.decrypt p
        if pyStrip dp == "" then none else some dp
    | none => none
  let client : DynamicAPIClient :=
    { api_source, api_key := decrypted_key, username := decrypted_username,
      password := decrypted_password, api_url_override := api_key.api_url }
  let result := client.query env.http ioc_type ioc_value 30
  let status := result.status
  let risk_score := result.risk_score
  let risk_score :=
    if api_source.name == "kaspersky" then
      match risk_score with
      | some (.str zone) => some (Json.num ((kaspersky_zone_to_score.lookup zone).getD 0.5))
      | r => r
    else risk_score
  match risk_score with
  | none =>
    { source := api_source.name, status, risk_score := none,
      description := some (build_source_description result.data status),
      raw := result.raw }
  | some j =>
    match pyFloat j with
    | some q =>
      { source := api_source.name, status, risk_score := some q,
        description := some (build_source_description result.data status),
        raw := result.raw }
    | none =>
      { source := api_source.name, status := "error", risk_score := none,
        description := some "Error: could not convert risk score to float",
        raw := none }

/-- Model of `IOCService._query_single_source` (lines 107-242): unsupported IOC type
is skipped; when authentication is required, a blank stored key or a
decryption that yields blank material short-circuits to a `status="error"`
result before any client is built; otherwise the client call runs with the
decrypted (or empty) key. -/
def query_single_source (env : Env) (api_key : APIKey) (api_source : APISource)
    (ioc_type ioc_value : String) : IOCSourceResult :=
  if !api_source.supported_ioc_types.isEmpty &&
      !((api_source.supported_ioc_types.map pyLower).contains (pyLower ioc_type)) then
    { source := api_source.name, status := "skipped", risk_score := none,
      description := some ("IOC type \x27" ++ ioc_type ++ "\x27 not supported by " ++
        api_source.display_name),
      raw := none }
  else
    let requires_auth := api_source.authentication_type != .none_
    if requires_auth then
      if pyStrip api_key.api_key != "" then
        let decrypted_key := env.decrypt api_key.api_key
        if pyStrip decrypted_key == "" then
          { source := api_source.name, status := "error", risk_score := none,
            description := some "Failed to decrypt API key or API key is empty",
            raw := none }
        else
          query_single_source_exec env api_key api_source decrypted_key ioc_type ioc_value
      else
        { source := api_source.name, status := "error", risk_score := none,
          description := some "API key is required for this API source",
          raw := none }
    else
      query_single_source_exec env api_key api_source "" ioc_type ioc_value

/-- Model of `IOCService._query_single_source_without_key` (lines 244-312): the
unauthenticated path — same skipped check, empty key, no credential parts,
no URL override, and no Kaspersky zone mapping. -/
def query_single_source_without_key (env : Env) (api_source : APISource)
    (ioc_type ioc_value : String) : IOCSourceResult :=
  if !api_source.supported_ioc_types.isEmpty &&
      !((api_source.supported_ioc_types.map pyLower).contains (pyLower ioc_type)) then
    { source := api_source.name, status := "skipped", risk_score := none,
      description := some ("IOC type \x27" ++ ioc_type ++ "\x27 not supported by " ++
        api_source.display_name),
      raw := none }
  else
    let client : DynamicAPIClient :=
      { api_source, api_key := "", username := none, password := none,
        api_url_override := none }
    let result := client.query env.http ioc_type ioc_value 30
    let status := result.status
    match result.risk_score with
    | none =>
      { source := api_source.name, status, risk_score := none,
        description := some (build_source_description result.data status),
        raw := result.raw }
    | some j =>
      match pyFloat j with
      | some q =>
        { source := api_source.name, status, risk_score := some q,
          description := some (build_source_description result.data status),
          raw := result.raw }
      | none =>
        { source := api_source.name, status := "error", risk_score := none,
          description := some "Error: could not convert risk score to float",
          raw := none }

/-- The combined fan-out list of `query_ioc` (lines 344-362): credentialed
pairs first, then unauthenticated sources de-duplicated by source id
against the list built so far. -/
def all_sources_to_query (db : Db) (sources : Option (List String))
    (auto_mode_only : Bool) : List (Option APIKey × APISource) :=
  let api_key_sources := get_active_api_keys db sources auto_mode_only
  let sources_without_keys := get_sources_without_auth db sources
  let init : List (Option APIKey × APISource) :=
    api_key_sources.map (fun p => (some p.1, p.2))
  sources_without_keys.foldl (fun acc api_source =>
    if acc.any (fun q => q.2.id == api_source.id) then acc
    else acc ++ [(none, api_source)]) init

/-- The single degraded `SourceResult` returned when no eligible source
exists (lines 370-378). -/
def system_no_sources_result : IOCSourceResult :=
  { source := "system", status := "error", risk_score := none,
    description := some "No active API keys or sources found for the requested sources",
    raw := none }

end IOCService

/-- One database operation performed inside `_save_query_to_db`: staging a
row (`db.add`), a flush, a read (`db.query(...).first()`), or the final
commit. -/
inductive DbOp where
  | addRow (r : DbRow)
  | flushOp
  | readOp
  | commitOp

/-- Effect of one operation on the session. -/
def applyOp : DbOp → DbSession → DbSession
  | .addRow r, s => ⟨s.committed, s.pending ++ [r]⟩
  | .flushOp, s => s
  | .readOp, s => s
  | .commitOp, s => ⟨s.committed ++ s.pending, []⟩

/-- Run the operations in order; the operation whose index is `fail_at`
raises instead of executing, surfacing the session as it stood
(`Except.error`). -/
def runOps (fail_at : Option ℕ) : List DbOp → DbSession → ℕ → Except DbSession DbSession
  | [], s, _ => .ok s
  | op :: rest, s, idx =>
    if fail_at == some idx then .error s
    else runOps fail_at rest (applyOp op s) (idx + 1)

namespace IOCService

/-- The ordered staging operations of `_save_query_to_db` (lines 418-458),
everything before the final commit: add the `IOCQuery` row, flush, then per
source result a lookup of the `APISource` row (a result whose source has no
`APISource` row is skipped, lines 442-443) followed by adding the
`ThreatIntelligenceData` row. -/
def save_stage_ops (db : Db) (user_id : String) (payload : IOCQueryRequest)
    (response : IOCQueryResponse) : List DbOp :=
  let ioc_query_row : IOCQueryRow :=
    { user_id, ioc_type := payload.ioc_type, ioc_value := payload.ioc_value,
      query_date := response.queried_at,
      overall_risk := response.overall_risk,
      risk_score := match response.overall_risk with
        | some r => if r == "" then none else get_risk_score_from_level (some r)
        | none => none,
      status := match response.overall_risk with
        | some r => if r == "" then "pending" else r
        | none => "pending" }
  [DbOp.addRow (.queryRow ioc_query_row), DbOp.flushOp] ++
    (response.queried_sources.flatMap (fun sr =>
      [DbOp.readOp] ++
        (match db.sources.find? (fun s => s.name == sr.source) with
          | some _ =>
            [DbOp.addRow (.threatRow
              { source_api := sr.source, status := sr.status,
                risk_score := sr.risk_score, description := sr.description,
                confidence_score := sr.risk_score })]
          | none => [])))

/-- The full ordered database operations of `_save_query_to_db` (lines
418-460): the staging operations followed by the commit (line 460). -/
def save_ops (db : Db) (user_id : String) (payload : IOCQueryRequest)
    (response : IOCQueryResponse) : List DbOp :=
  save_stage_ops db user_id payload response ++ [DbOp.commitOp]

/-- The rows staged by a list of operations, in order. -/
def addedRows (ops : List DbOp) : List DbRow :=
  ops.filterMap (fun op =>
    match op with
    | .addRow r => some r
    | _ => none)

/-- The rows `_save_query_to_db` stages for one response, in order. -/
def saved_rows (db : Db) (user_id : String) (payload : IOCQueryRequest)
    (response : IOCQueryResponse) : List DbRow :=
  addedRows (save_ops db user_id payload response)

/-- Model of `IOCService._save_query_to_db` (lines 418-465): run the staging
operations; any exception is caught, logged and answered with
`db.rollback()` — nothing escapes to the caller. -/
def save_query_to_db (env : Env) (session : DbSession) (user_id : String)
    (payload : IOCQueryRequest) (response : IOCQueryResponse) : DbSession :=
  match runOps env.saveFail (save_ops env.db user_id payload response) session 0 with
  | .ok s => s
  | .error s => ⟨s.committed, []⟩

/-- Model of `IOCService.query_ioc` (lines 314-416): Redis lookup, in-memory lookup
(cache writes have no observable effect on the modelled state and are
omitted), source resolution, the degraded system result for an empty
source set, per-source fan-out, aggregation, and the best-effort database
save. Returns the response together with the session after the save. -/
def query_ioc (env : Env) (user_id : String) (payload : IOCQueryRequest)
    (auto_mode_only : Bool := false) : IOCQueryResponse × DbSession :=
  match env.redisGet with
  | some cached => (cached, env.dbSession)
  | none =>
    match env.memGet with
    | some cached => (cached, env.dbSession)
    | none =>
      let pairs := all_sources_to_query env.db payload.sources auto_mode_only
      if pairs.isEmpty then
        ({ ioc_type := payload.ioc_type, ioc_value := payload.ioc_value,
            overall_risk := none, queried_sources := [system_no_sources_result],
            queried_at := env.now }, env.dbSession)
      else
        let results := pairs.map (fun p =>
          match p.1 with
          | some api_key => query_single_source env api_key p.2 payload.ioc_type payload.ioc_value
          | none => query_single_source_without_key env p.2 payload.ioc_type payload.ioc_value)
        let overall_risk := calculate_overall_risk results
        let response : IOCQueryResponse :=
          { ioc_type := payload.ioc_type, ioc_value := payload.ioc_value,
            overall_risk, queried_sources := results, queried_at := env.now }
        (response, save_query_to_db env env.dbSession user_id payload response)

end IOCService

/-- Model of `RiskThreshold` (app/models/watchlist.py). -/
inductive RiskThreshold where
  | low
  | medium
  | high
  | critical
deriving DecidableEq, Repr

/-- Model of `IOCStatus` (app/models/watchlist.py). -/
inductive IOCStatus where
  | clean
  | suspicious
  | malicious
deriving DecidableEq, Repr

/-- Model of `AlertSeverity` (app/models/alert.py). -/
inductive AlertSeverity where
  | low
  | medium
  | high
  | critical
deriving DecidableEq, Repr

/-- Model `AssetWatchlist` (app/models/watchlist.py), restricted to the
columns the scheduler reads; `check_interval` is in minutes. -/
structure AssetWatchlist where
  id : String
  user_id : String
  is_active : Bool := true
  notification_enabled : Bool := true
  check_interval : ℤ := 60
deriving DecidableEq, Repr

/-- Model `AssetWatchlistItem` (app/models/watchlist.py), restricted to the
columns the scheduler reads and writes. -/
structure AssetWatchlistItem where
  id : String
  watchlist_id : String
  ioc_type : String
  ioc_value : String
  risk_threshold : Option RiskThreshold := none
  last_check_date : Option ℚ := none
  last_risk_score : Option String := none
  last_status : Option IOCStatus := none
  is_active : Bool := true
deriving DecidableEq, Repr

/-- The `AssetCheckHistory` row written by `_check_watchlist_item`
(app/services/scheduler.py, lines 152-164); the JSON snapshot column is
represented by the list of sources checked. -/
structure AssetCheckHistory where
  watchlist_item_id : String
  check_date : ℚ
  risk_score : Option String
  status : Option IOCStatus
  sources_checked : List String
  alert_triggered : Bool

/-- The `Alert` created on trigger (lines 169-198). -/
structure AlertRow where
  severity : AlertSeverity
  title : String
  message : String
  watchlist_id : String
  asset_id : String

namespace WatchlistScheduler

/-- Model of `WatchlistScheduler._convert_risk_to_status` (app/services/scheduler.py,
lines 203-215). -/
def convert_risk_to_status (risk_level : Option String) : Option IOCStatus :=
  match risk_level with
  | none => none
  | some s =>
    if s == "" then none
    else ([("high", IOCStatus.malicious), ("medium", IOCStatus.suspicious),
      ("low", IOCStatus.suspicious), ("clean", IOCStatus.clean)]).lookup (pyLower s)

/-- The `threshold_map` dict of `_should_trigger_alert` (lines 224-229). -/
def threshold_map (t : RiskThreshold) : List String :=
  match t with
  | .low => ["low", "medium", "high"]
  | .medium => ["medium", "high"]
  | .high => ["high"]
  | .critical => ["high"]

/-- Model of `WatchlistScheduler._should_trigger_alert` (lines 217-232): a null (or
empty, by Python truthiness) threshold or risk level never triggers; else
trigger iff the lower-cased risk level is in the list of the threshold. -/
def should_trigger_alert (risk_threshold : Option RiskThreshold)
    (risk_level : Option String) : Bool :=
  match risk_threshold, risk_level with
  | some t, some r => if r == "" then false else (threshold_map t).contains (pyLower r)
  | _, _ => false

/-- The `severity_map` of `_check_watchlist_item` (lines 174-179). -/
def severity_map : List (String × AlertSeverity) :=
  [("low", AlertSeverity.low), ("medium", AlertSeverity.medium),
    ("high", AlertSeverity.high), ("critical", AlertSeverity.high)]

/-- Severity derivation of `_check_watchlist_item` (lines 180-181):
`severity_map.get((overall_risk or "unknown").lower(), MEDIUM)`. -/
def alert_severity_for (overall_risk : Option String) : AlertSeverity :=
  let risk_level_for_alert :=
    (match overall_risk with
      | some s => if s == "" then "unknown" else s
      | none => "unknown")
  (severity_map.lookup (pyLower risk_level_for_alert)).getD AlertSeverity.medium

/-- The per-item eligibility test of `_check_watchlist` (lines 111-122):
never-checked items are due; otherwise the elapsed time since `last_check`
must reach the interval of the watchlist. -/
def should_check_item (now : ℚ) (check_interval : ℤ) (item : AssetWatchlistItem) : Bool :=
  match item.last_check_date with
  | none => true
  | some t => decide ((check_interval : ℚ) ≤ now - t)

/-- Model of `WatchlistScheduler._check_watchlist` (lines 85-128), as the list of
items it hands to `_check_watchlist_item`: nothing when the interval of the
watchlist is below the configured floor; otherwise the active items of the
watchlist whose elapsed-time condition holds. -/
def check_watchlist (items : List AssetWatchlistItem) (watchlist : AssetWatchlist)
    (now : ℚ) (min_interval : ℤ) : List AssetWatchlistItem :=
  if watchlist.check_interval < min_interval then []
  else
    let wl_items := items.filter (fun i => i.watchlist_id == watchlist.id && i.is_active)
    if wl_items.isEmpty then []
    else wl_items.filter (should_check_item now watchlist.check_interval)

/-- Model of `WatchlistScheduler._check_all_watchlists` (lines 62-83), as the
watchlists a tick visits paired with the items each one checks: only
active watchlists with notifications enabled are visited. -/
def check_all_watchlists (watchlists : List AssetWatchlist)
    (items : List AssetWatchlistItem) (now : ℚ) (min_interval : ℤ) :
    List (AssetWatchlist × List AssetWatchlistItem) :=
  (watchlists.filter (fun w => w.is_active && w.notification_enabled)).map
    (fun w => (w, check_watchlist items w now min_interval))

/-- The observable effect of checking one item. -/
structure CheckOutcome where
  response : IOCQueryResponse
  item : AssetWatchlistItem
  history : AssetCheckHistory
  alert : Option AlertRow
  session : DbSession

/-- Model of `WatchlistScheduler._check_watchlist_item` (lines 130-201): query the
orchestrator with `auto_mode_only=True`, update the
last-check/last-risk/last-status fields of the item, build the history row with the
alert decision, and create the alert (severity derived from the verdict)
exactly when the threshold policy triggers. -/
def check_watchlist_item (env : Env) (item : AssetWatchlistItem)
    (watchlist : AssetWatchlist) : CheckOutcome :=
  let qr := IOCService.query_ioc env watchlist.user_id
    { ioc_type := item.ioc_type, ioc_value := item.ioc_value } true
  let ioc_response := qr.1
  let item2 := { item with
    last_check_date := some env.now,
    last_risk_score := ioc_response.overall_risk,
    last_status := convert_risk_to_status ioc_response.overall_risk }
  let triggered := should_trigger_alert item.risk_threshold ioc_response.overall_risk
  let history : AssetCheckHistory :=
    { watchlist_item_id := item.id, check_date := env.now,
      risk_score := ioc_response.overall_risk,
      status := convert_risk_to_status ioc_response.overall_risk,
      sources_checked := ioc_response.queried_sources.map (fun r => r.source),
      alert_triggered := triggered }
  let alert : Option AlertRow :=
    if triggered then
      some
        { severity := alert_severity_for ioc_response.overall_risk,
          title := "High Risk Detected: " ++ pyUpper item.ioc_type ++ " - " ++ item.ioc_value,
          message := "Watchlist asset \x27" ++ item.ioc_value ++ "\x27 detected with " ++
            (match ioc_response.overall_risk with
              | some s => if s == "" then "unknown" else s
              | none => "unknown") ++ " risk level.",
          watchlist_id := watchlist.id, asset_id := item.id }
    else none
  { response := ioc_response, item := item2, history, alert, session := qr.2 }

end WatchlistScheduler

/-! Concrete fixtures used to instantiate the theorems. -/

namespace Fixtures

/-- An active source that requires an API key and supports only `ip`. -/
def src_auth_ip : APISource :=
  { id := "s1", name := "alpha", display_name := "Alpha",
    base_url := "https://alpha.example", supported_ioc_types := ["ip"],
    authentication_type := .api_key }

/-- An active credential for `src_auth_ip` in auto mode, with a blank stored
key. -/
def key_blank : APIKey :=
  { id := "k1", user_id := "u1", api_source_id := "s1", api_key := "",
    update_mode := .auto }

/-- An active credential for `src_auth_ip` in auto mode with a non-blank
stored key. -/
def key_ok : APIKey :=
  { id := "k2", user_id := "u1", api_source_id := "s1", api_key := "cipher",
    update_mode := .auto }

/-- An environment with an empty registry, identity decryption, and a
network that always times out. -/
def env0 : Env :=
  { db := ⟨[], []⟩, decrypt := fun s => s, http := fun _ => .timeout }

/-- An environment whose registry holds `key_ok`/`src_auth_ip`. -/
def env1 : Env :=
  { db := ⟨[key_ok], [src_auth_ip]⟩, decrypt := fun s => s,
    http := fun _ => .timeout }

/-- A watchlist fixture. -/
def wl : AssetWatchlist :=
  { id := "w1", user_id := "u1", check_interval := 60 }

/-- A never-checked active item of `wl`. -/
def item_never : AssetWatchlistItem :=
  { id := "i1", watchlist_id := "w1", ioc_type := "ip", ioc_value := "8.8.8.8" }

/-- An item of `wl` last checked 59 minutes before time 1000. -/
def item_recent : AssetWatchlistItem :=
  { id := "i2", watchlist_id := "w1", ioc_type := "ip", ioc_value := "1.1.1.1",
    last_check_date := some 941 }

/-- An item of `wl` last checked 61 minutes before time 1000. -/
def item_due : AssetWatchlistItem :=
  { id := "i3", watchlist_id := "w1", ioc_type := "ip", ioc_value := "2.2.2.2",
    last_check_date := some 939 }

end Fixtures

/-! Theorems. -/

/-- C1: the claim — backed by the test of the repository itself,
`test_ioc_service.py::test_calculate_overall_risk`, which asserts
`_calculate_overall_risk([skipped]) is None` — says a result list that is
entirely `skipped`/`not_supported` yields a null overall verdict, and that
an unsupported indicator kind yields a `skipped` SourceResult. The second
half holds, but the aggregation code counts `skipped` among the
non-`success` statuses and returns `"unknown"`: this theorem evaluates the
code at the failing input (the skipped result produced by querying a
`url` against the ip-only source, alone in the list) and shows the verdict
is `"unknown"`, not null. -/
theorem C1_all_skipped_yields_unknown_not_null :
    (IOCService.query_single_source Fixtures.env0 Fixtures.key_ok Fixtures.src_auth_ip
        "url" "http://x.example").status = "skipped" ∧
    IOCService.calculate_overall_risk
        [IOCService.query_single_source Fixtures.env0 Fixtures.key_ok Fixtures.src_auth_ip
          "url" "http://x.example"] = some "unknown" ∧
    IOCService.calculate_overall_risk
        [IOCService.query_single_source Fixtures.env0 Fixtures.key_ok Fixtures.src_auth_ip
          "url" "http://x.example"] ≠ none := by
  refine ⟨by decide, by decide, by decide⟩

/-- C2: when no result is a `success` with a non-null signal and at least
one result has a non-`success` status, `_calculate_overall_risk` returns
`"unknown"`.  (In the code `skipped`/`not_supported` also count as
non-`success` statuses.) -/
theorem C2_no_signal_some_failure_is_unknown (results : List IOCSourceResult)
    (hne : results ≠ [])
    (hnosig : ∀ r ∈ results, ¬(r.status = "success" ∧ r.risk_score ≠ none))
    (hfail : ∃ r ∈ results, r.status ≠ "success") :
    IOCService.calculate_overall_risk results = some "unknown" := by
  have h1 : results.isEmpty = false := by
    cases results with
    | nil => exact absurd rfl hne
    | cons a l => rfl
  have h2 : results.filter (fun r => r.risk_score.isSome && r.status == "success") = [] := by
    apply List.filter_eq_nil_iff.mpr
    intro r hr
    intro hb
    have hb' : r.risk_score.isSome = true ∧ (r.status == "success") = true := by
      simpa using hb
    exact hnosig r hr ⟨by simpa using hb'.2,
      by simpa [Option.isSome_iff_ne_none] using hb'.1⟩
  have h3 : results.filter (fun r => r.status != "success") ≠ [] := by
    rcases hfail with ⟨r, hr, hrs⟩
    intro hnil
    have := List.filter_eq_nil_iff.mp hnil r hr
    simp [hrs] at this
  simp only [IOCService.calculate_overall_risk, h1, h2]
  simp [List.isEmpty_iff, h3]

/-- Witness for C2 at a concrete input: a single errored result yields
`"unknown"`. -/
theorem C2_no_signal_some_failure_is_unknown_witness :
    IOCService.calculate_overall_risk
      [{ source := "test1", status := "error", risk_score := none }] = some "unknown" :=
  C2_no_signal_some_failure_is_unknown _ (by simp) (by simp) (by simp)

/-- C3: when at least one result is a `success` with a non-null signal, the
overall verdict is exactly the four-bucket mapping (inclusive boundaries
0.8 / 0.5 / 0.2) of the arithmetic mean of exactly those signals —
non-`success` results and null signals are excluded by construction of
`success_signals` — and the boundaries are inclusive: a mean of exactly 1/2
maps to `medium` and exactly 1/5 maps to `low`. -/
theorem C3_mean_is_four_bucketed (results : List IOCSourceResult)
    (hsig : ∃ r ∈ results, r.status = "success" ∧ r.risk_score ≠ none) :
    IOCService.calculate_overall_risk results =
      some (spec_risk_bucket ((IOCService.success_signals results).sum /
        ((IOCService.success_signals results).length : ℚ))) ∧
    spec_risk_bucket (1/2) = "medium" ∧ spec_risk_bucket (1/5) = "low" := by
  obtain ⟨r, hr, hrs, hscore⟩ := hsig
  have hne : results.isEmpty = false := by
    cases results with
    | nil => cases hr
    | cons a l => rfl
  have hmem : r ∈ results.filter (fun r => r.risk_score.isSome && r.status == "success") :=
    List.mem_filter.mpr ⟨hr, by simp [hrs, Option.isSome_iff_ne_none, hscore]⟩
  have hvalid : (results.filter
      (fun r => r.risk_score.isSome && r.status == "success")).isEmpty = false := by
    cases h : results.filter (fun r => r.risk_score.isSome && r.status == "success") with
    | nil => rw [h] at hmem; cases hmem
    | cons a l => rfl
  refine ⟨?_, by norm_num [spec_risk_bucket], by norm_num [spec_risk_bucket]⟩
  simp only [IOCService.calculate_overall_risk, IOCService.success_signals, hne, hvalid,
    Bool.false_eq_true, if_false, spec_risk_bucket]
  split_ifs <;> rfl

/-- Witness for C3 at a concrete input: a single success with signal 1/2 —
the mean is exactly the 0.5 boundary and the verdict is `medium`. -/
theorem C3_mean_is_four_bucketed_witness :
    IOCService.calculate_overall_risk
        [{ source := "a", status := "success", risk_score := some (1/2) }] =
      some (spec_risk_bucket ((IOCService.success_signals
        [{ source := "a", status := "success", risk_score := some (1/2) }]).sum /
        ((IOCService.success_signals
          [{ source := "a", status := "success", risk_score := some (1/2) }]).length : ℚ))) ∧
    spec_risk_bucket (1/2) = "medium" ∧ spec_risk_bucket (1/5) = "low" :=
  C3_mean_is_four_bucketed _ ⟨_, List.mem_singleton.mpr rfl, rfl, by simp⟩

/-- C4 (counterexample): as stated, the claim says every non-2xx HTTP
response is surfaced as `status="error"`; but `raise_for_status` raises
only for status codes in the 400-599 range, so a 304 (Not Modified)
response — a non-2xx status — is surfaced as `status="success"`. -/
theorem C4_counterexample_304_not_error :
    (DynamicAPIClient.query
        { api_source := Fixtures.src_auth_ip, api_key := "k" }
        (fun _ => .response 304 (.inr "")) "ip" "1.2.3.4" 30).status = "success" ∧
    ¬(200 ≤ 304 ∧ 304 < 300) ∧ ("success" : String) ≠ "error" := by
  exact ⟨rfl, by decide, by decide⟩

/-- C4 (amended): `DynamicAPIClient.query` is total (never raises): a
timeout yields `status="timeout"`; a connection/DNS failure (any request
exception) yields `status="error"` with a description; an HTTP response
with a status in the 400-599 range yields `status="error"` with a
description (these client/server error codes are exactly what
`raise_for_status` raises for — a non-2xx status outside that range, such
as 304, reaches the success path); and a response outside 400-599 whose
body is not valid JSON is wrapped as `{"text": <raw body>}` and extracted
normally with `status="success"`. -/
theorem C4_query_failure_semantics (c : DynamicAPIClient) (t v : String)
    (o : HttpOutcome) (n : ℕ) :
    (c.query (fun _ => o) t v n).status =
      (match o with
        | .timeout => "timeout"
        | .requestError _ => "error"
        | .response code _ => if 400 ≤ code ∧ code < 600 then "error" else "success") ∧
    (c.query (fun _ => o) t v n).error.isSome =
      (match o with
        | .timeout => true
        | .requestError _ => true
        | .response code _ => decide (400 ≤ code ∧ code < 600)) ∧
    (∀ (code : ℕ) (txt : String),
      (c.query (fun _ => .response code (.inr txt)) t v n).raw =
        if 400 ≤ code ∧ code < 600 then none
        else some (.obj [("text", .str txt)])) := by
  refine ⟨?_, ?_, ?_⟩
  · cases o with
    | timeout => rfl
    | requestError e => rfl
    | response code body =>
      by_cases h : 400 ≤ code ∧ code < 600 <;> simp [DynamicAPIClient.query, h]
  · cases o with
    | timeout => rfl
    | requestError e => rfl
    | response code body =>
      by_cases h : 400 ≤ code ∧ code < 600 <;> simp [DynamicAPIClient.query, h]
  · intro code txt
    by_cases h : 400 ≤ code ∧ code < 600 <;>
      simp [DynamicAPIClient.query, DynamicAPIClient.parse_response, h]

/-- C5: every `(credential, descriptor)` pair the registry lookup returns
has both active flags set; when `auto_mode_only` is true every returned
credential is in `auto` update mode; and the item check of the scheduler always
invokes the orchestrator with `auto_mode_only = true`. -/
theorem C5_registry_pairs_active_and_auto (db : Db) (sources : Option (List String))
    (auto : Bool) (p : APIKey × APISource)
    (hp : p ∈ IOCService.get_active_api_keys db sources auto)
    (env : Env) (item : AssetWatchlistItem) (w : AssetWatchlist) :
    p.1.is_active = true ∧ p.2.is_active = true ∧
    (auto = true → p.1.update_mode = UpdateMode.auto) ∧
    (WatchlistScheduler.check_watchlist_item env item w).response =
      (IOCService.query_ioc env w.user_id
        { ioc_type := item.ioc_type, ioc_value := item.ioc_value } true).1 := by
  have hbase : p.1.is_active = true ∧ p.2.is_active = true ∧
      (auto = true → p.1.update_mode = UpdateMode.auto) := by
    unfold IOCService.get_active_api_keys at hp
    cases auto with
    | false =>
      cases sources with
      | none =>
        simp [List.mem_filter] at hp
        exact ⟨by tauto, by tauto, by simp⟩
      | some l =>
        by_cases hl : l.isEmpty <;> simp [hl, List.mem_filter] at hp <;>
          exact ⟨by tauto, by tauto, by simp⟩
    | true =>
      cases sources with
      | none =>
        simp [List.mem_filter] at hp
        exact ⟨by tauto, by tauto, fun _ => by tauto⟩
      | some l =>
        by_cases hl : l.isEmpty <;> simp [hl, List.mem_filter] at hp <;>
          exact ⟨by tauto, by tauto, fun _ => by tauto⟩
  exact ⟨hbase.1, hbase.2.1, hbase.2.2, rfl⟩

/-- Witness for C5 at a concrete input: the fixture registry holding one
active auto-mode credential with its active source. -/
theorem C5_registry_pairs_active_and_auto_witness :
    (Fixtures.key_ok, Fixtures.src_auth_ip).1.is_active = true ∧
    (Fixtures.key_ok, Fixtures.src_auth_ip).2.is_active = true ∧
    (true = true → (Fixtures.key_ok, Fixtures.src_auth_ip).1.update_mode = UpdateMode.auto) ∧
    (WatchlistScheduler.check_watchlist_item Fixtures.env1 Fixtures.item_never Fixtures.wl).response =
      (IOCService.query_ioc Fixtures.env1 Fixtures.wl.user_id
        { ioc_type := Fixtures.item_never.ioc_type,
          ioc_value := Fixtures.item_never.ioc_value } true).1 :=
  C5_registry_pairs_active_and_auto Fixtures.env1.db none true
    (Fixtures.key_ok, Fixtures.src_auth_ip)
    (by simp [IOCService.get_active_api_keys, Fixtures.env1, Fixtures.key_ok,
      Fixtures.src_auth_ip])
    Fixtures.env1 Fixtures.item_never Fixtures.wl

/-- Membership in the `if items == [] then [] else items.filter q` shape of
`_check_watchlist` is membership in the filter. -/
theorem mem_if_isEmpty_filter {α : Type} (e : List α) (q : α → Bool) (i : α) :
    (i ∈ (if e.isEmpty then ([] : List α) else e.filter q)) ↔ i ∈ e.filter q := by
  cases e with
  | nil => simp
  | cons a l => simp

/-- C6: on a tick, every active watchlist with notifications enabled is
visited; a watchlist whose interval is below the configured floor has no
item checked; otherwise an item of the watchlist is checked iff it is
active and either never checked or its elapsed time reaches the
interval. -/
theorem C6_tick_interval_gating (watchlists : List AssetWatchlist)
    (items : List AssetWatchlistItem) (w : AssetWatchlist) (hw : w ∈ watchlists)
    (hact : w.is_active = true) (hnot : w.notification_enabled = true)
    (now : ℚ) (min_interval : ℤ) :
    (w, WatchlistScheduler.check_watchlist items w now min_interval) ∈
        WatchlistScheduler.check_all_watchlists watchlists items now min_interval ∧
    (w.check_interval < min_interval →
      WatchlistScheduler.check_watchlist items w now min_interval = []) ∧
    (min_interval ≤ w.check_interval →
      ∀ i, i ∈ WatchlistScheduler.check_watchlist items w now min_interval ↔
        (i ∈ items ∧ i.watchlist_id = w.id ∧ i.is_active = true ∧
          (i.last_check_date = none ∨
            ∃ t, i.last_check_date = some t ∧ (w.check_interval : ℚ) ≤ now - t))) := by
  refine ⟨?_, ?_, ?_⟩
  · exact List.mem_map.mpr ⟨w, List.mem_filter.mpr ⟨hw, by simp [hact, hnot]⟩, rfl⟩
  · intro hlt
    unfold WatchlistScheduler.check_watchlist
    simp [hlt]
  · intro hge i
    unfold WatchlistScheduler.check_watchlist
    have hnlt : ¬ w.check_interval < min_interval := not_lt.mpr hge
    simp only [hnlt, if_false]
    rw [mem_if_isEmpty_filter]
    cases hld : i.last_check_date with
    | none =>
      simp [List.mem_filter, WatchlistScheduler.should_check_item, hld, and_assoc]
    | some t =>
      simp only [List.mem_filter, WatchlistScheduler.should_check_item, hld, Bool.and_eq_true,
        beq_iff_eq, decide_eq_true_eq]
      constructor
      · rintro ⟨⟨hi, hid, hia⟩, hdue⟩
        exact ⟨hi, hid, hia, Or.inr ⟨t, rfl, hdue⟩⟩
      · rintro ⟨hi, hid, hia, h | ⟨t2, ht2, hdue⟩⟩
        · cases h
        · cases ht2
          exact ⟨⟨hi, hid, hia⟩, hdue⟩

/-- Witness for C6 at a concrete input (interval 60, floor 60, time 1000):
the item last checked 61 minutes ago is checked, the item last checked 59
minutes ago is not. -/
theorem C6_tick_interval_gating_witness :
    Fixtures.item_due ∈ WatchlistScheduler.check_watchlist
        [Fixtures.item_never, Fixtures.item_recent, Fixtures.item_due]
        Fixtures.wl 1000 60 ∧
    Fixtures.item_recent ∉ WatchlistScheduler.check_watchlist
        [Fixtures.item_never, Fixtures.item_recent, Fixtures.item_due]
        Fixtures.wl 1000 60 := by
  constructor
  · exact ((C6_tick_interval_gating [Fixtures.wl]
      [Fixtures.item_never, Fixtures.item_recent, Fixtures.item_due]
      Fixtures.wl (by simp) rfl rfl 1000 60).2.2 (by decide)
        Fixtures.item_due).mpr
      ⟨by simp, rfl, rfl, Or.inr ⟨939, rfl, by norm_num [Fixtures.wl]⟩⟩
  · intro hmem
    have h := ((C6_tick_interval_gating [Fixtures.wl]
      [Fixtures.item_never, Fixtures.item_recent, Fixtures.item_due]
      Fixtures.wl (by simp) rfl rfl 1000 60).2.2 (by decide)
        Fixtures.item_recent).mp hmem
    rcases h.2.2.2 with h0 | ⟨t, ht, hle⟩
    · simp [Fixtures.item_recent] at h0
    · rw [show t = 941 by simpa [Fixtures.item_recent] using ht.symm] at hle
      norm_num [Fixtures.wl] at hle

/-- C7: the alert trigger decision follows the policy table — threshold
`low` triggers on verdicts `{low, medium, high}`, `medium` on
`{medium, high}`, `high` and `critical` only on `{high}` — a null
threshold or verdict never triggers, and the severity of the created alert is
derived from the verdict as `low→LOW`, `medium→MEDIUM`,
`high/critical→HIGH`, defaulting to `MEDIUM` for any other verdict. -/
theorem C7_alert_policy_and_severity (v : String) (o : Option String) :
    (WatchlistScheduler.should_trigger_alert (some RiskThreshold.low) (some v) = true ↔
      (pyLower v = "low" ∨ pyLower v = "medium" ∨ pyLower v = "high")) ∧
    (WatchlistScheduler.should_trigger_alert (some RiskThreshold.medium) (some v) = true ↔
      (pyLower v = "medium" ∨ pyLower v = "high")) ∧
    (WatchlistScheduler.should_trigger_alert (some RiskThreshold.high) (some v) = true ↔
      pyLower v = "high") ∧
    (WatchlistScheduler.should_trigger_alert (some RiskThreshold.critical) (some v) = true ↔
      pyLower v = "high") ∧
    WatchlistScheduler.should_trigger_alert none o = false ∧
    (∀ rt : RiskThreshold, WatchlistScheduler.should_trigger_alert (some rt) none = false) ∧
    WatchlistScheduler.alert_severity_for o =
      (match o with
        | none => AlertSeverity.medium
        | some s =>
          if pyLower s = "low" then AlertSeverity.low
          else if pyLower s = "medium" then AlertSeverity.medium
          else if pyLower s = "high" then AlertSeverity.high
          else if pyLower s = "critical" then AlertSeverity.high
          else AlertSeverity.medium) := by
  have htrig : ∀ rt : RiskThreshold,
      (WatchlistScheduler.should_trigger_alert (some rt) (some v) = true ↔
        pyLower v ∈ WatchlistScheduler.threshold_map rt) := by
    intro rt
    by_cases hv : v = ""
    · subst hv
      cases rt <;>
        simp [WatchlistScheduler.should_trigger_alert, WatchlistScheduler.threshold_map,
          pyLower]
    · simp [WatchlistScheduler.should_trigger_alert, hv,
        List.contains_iff_exists_mem_beq]
  refine ⟨?_, ?_, ?_, ?_, ?_, ?_, ?_⟩
  · simpa [WatchlistScheduler.threshold_map] using htrig .low
  · simpa [WatchlistScheduler.threshold_map] using htrig .medium
  · simpa [WatchlistScheduler.threshold_map] using htrig .high
  · simpa [WatchlistScheduler.threshold_map] using htrig .critical
  · cases o <;> rfl
  · intro rt; rfl
  · cases o with
    | none => rfl
    | some s =>
      by_cases hs : s = ""
      · subst hs; rfl
      · have hbeq : (s == "") = false := beq_eq_false_iff_ne.mpr hs
        simp only [WatchlistScheduler.alert_severity_for, WatchlistScheduler.severity_map,
          List.lookup, hbeq, Bool.false_eq_true, if_false]
        by_cases h1 : pyLower s = "low"
        · rw [show (pyLower s == "low") = true from beq_iff_eq.mpr h1]
          simp [h1]
        · rw [show (pyLower s == "low") = false from beq_eq_false_iff_ne.mpr h1]
          by_cases h2 : pyLower s = "medium"
          · rw [show (pyLower s == "medium") = true from beq_iff_eq.mpr h2]
            simp [h1, h2]
          · rw [show (pyLower s == "medium") = false from beq_eq_false_iff_ne.mpr h2]
            by_cases h3 : pyLower s = "high"
            · rw [show (pyLower s == "high") = true from beq_iff_eq.mpr h3]
              simp [h1, h2, h3]
            · rw [show (pyLower s == "high") = false from beq_eq_false_iff_ne.mpr h3]
              by_cases h4 : pyLower s = "critical"
              · rw [show (pyLower s == "critical") = true from beq_iff_eq.mpr h4]
                simp [h1, h2, h3, h4]
              · rw [show (pyLower s == "critical") = false from beq_eq_false_iff_ne.mpr h4]
                simp [h1, h2, h3, h4]

/-- C8 (counterexample): as stated, the claim says every auth-requiring
source with a blank stored key yields a `status="error"` result; but the
unsupported-IOC-type check runs first in `_query_single_source`, so an
auth-requiring source with a blank key that does not support the queried
kind yields `status="skipped"`, not `"error"`. -/
theorem C8_counterexample_skipped_precedes_error :
    Fixtures.src_auth_ip.authentication_type ≠ AuthenticationType.none_ ∧
    pyStrip Fixtures.key_blank.api_key = "" ∧
    (IOCService.query_single_source Fixtures.env0 Fixtures.key_blank Fixtures.src_auth_ip
        "url" "http://x.example").status = "skipped" ∧
    (IOCService.query_single_source Fixtures.env0 Fixtures.key_blank Fixtures.src_auth_ip
        "url" "http://x.example").status ≠ "error" := by
  exact ⟨by decide, by decide, by decide, by decide⟩

/-- C8 (amended): for a source that requires authentication and supports
the queried indicator kind, a blank stored key or a decryption yielding
blank material produces a `status="error"` result with a null signal,
without consulting the network (the result is the same for every network
behaviour); and, independently, on a cache miss every eligible source of
the fan-out list contributes exactly its own per-source result (the
outcome of one source never affects the entry of another). -/
theorem C8_credential_failure_isolated (env : Env) (k : APIKey) (s : APISource)
    (t v : String)
    (hauth : s.authentication_type ≠ AuthenticationType.none_)
    (hsupp : s.supported_ioc_types = [] ∨ pyLower t ∈ s.supported_ioc_types.map pyLower)
    (hkey : pyStrip k.api_key = "" ∨ pyStrip (env.decrypt k.api_key) = "") :
    (IOCService.query_single_source env k s t v).status = "error" ∧
    (IOCService.query_single_source env k s t v).risk_score = none ∧
    (∀ http2, IOCService.query_single_source { env with http := http2 } k s t v =
      IOCService.query_single_source env k s t v) ∧
    (∀ (env2 : Env) (u : String) (payload : IOCQueryRequest) (auto : Bool),
      (IOCService.query_ioc { env2 with redisGet := none, memGet := none }
          u payload auto).1.queried_sources =
        (if (IOCService.all_sources_to_query env2.db payload.sources auto).isEmpty then
          [IOCService.system_no_sources_result]
        else
          (IOCService.all_sources_to_query env2.db payload.sources auto).map (fun p =>
            match p.1 with
            | some api_key =>
              IOCService.query_single_source { env2 with redisGet := none, memGet := none }
                api_key p.2 payload.ioc_type payload.ioc_value
            | none =>
              IOCService.query_single_source_without_key
                { env2 with redisGet := none, memGet := none }
                p.2 payload.ioc_type payload.ioc_value))) := by
  have hskipb : (!s.supported_ioc_types.isEmpty &&
      !(List.map pyLower s.supported_ioc_types).contains (pyLower t)) = false := by
    rcases hsupp with h | h
    · simp [h]
    · have hc : (List.map pyLower s.supported_ioc_types).contains (pyLower t) = true :=
        List.elem_iff.mpr h
      simp only [hc, Bool.not_true, Bool.and_false]
  have hbne : (s.authentication_type != AuthenticationType.none_) = true :=
    bne_iff_ne.mpr hauth
  have hmain : ∀ env3 : Env, env3.decrypt = env.decrypt →
      (IOCService.query_single_source env3 k s t v).status = "error" ∧
      (IOCService.query_single_source env3 k s t v).risk_score = none := by
    intro env3 hdec
    by_cases hk : pyStrip k.api_key = ""
    · have hb : (pyStrip k.api_key != "") = false := by simp [hk]
      simp only [IOCService.query_single_source, hskipb, Bool.false_eq_true, if_false,
        hbne, eq_self_iff_true, if_true, hb]
      exact ⟨trivial, trivial⟩
    · have h2 : pyStrip (env3.decrypt k.api_key) = "" := by
        rcases hkey with h | h
        · exact absurd h hk
        · rw [hdec]; exact h
      have hk2 : (pyStrip k.api_key != "") = true := bne_iff_ne.mpr hk
      simp only [IOCService.query_single_source, hskipb, Bool.false_eq_true, if_false,
        hbne, eq_self_iff_true, if_true, hk2, h2, beq_self_eq_true]
      exact ⟨trivial, trivial⟩
  refine ⟨(hmain env rfl).1, (hmain env rfl).2, ?_, ?_⟩
  · intro http2
    by_cases hk : pyStrip k.api_key = ""
    · have hb : (pyStrip k.api_key != "") = false := by simp [hk]
      simp only [IOCService.query_single_source, hskipb, Bool.false_eq_true, if_false,
        hbne, eq_self_iff_true, if_true, hb]
    · have h2 : pyStrip (env.decrypt k.api_key) = "" := by
        rcases hkey with h | h
        · exact absurd h hk
        · exact h
      have hk2 : (pyStrip k.api_key != "") = true := bne_iff_ne.mpr hk
      simp only [IOCService.query_single_source, hskipb, Bool.false_eq_true, if_false,
        hbne, eq_self_iff_true, if_true, hk2, h2, beq_self_eq_true]
  · intro env2 u payload auto
    have h1 : ({ env2 with redisGet := none, memGet := none } : Env).redisGet = none := rfl
    have h2 : ({ env2 with redisGet := none, memGet := none } : Env).memGet = none := rfl
    have h3 : ({ env2 with redisGet := none, memGet := none } : Env).db = env2.db := rfl
    unfold IOCService.query_ioc
    simp only [h1, h2, h3]
    split <;> rfl

/-- Witness for C8 at a concrete input: an auth-requiring ip source with a
blank stored key queried for an ip. -/
theorem C8_credential_failure_isolated_witness :
    (IOCService.query_single_source Fixtures.env0 Fixtures.key_blank Fixtures.src_auth_ip
        "ip" "1.2.3.4").status = "error" ∧
    (IOCService.query_single_source Fixtures.env0 Fixtures.key_blank Fixtures.src_auth_ip
        "ip" "1.2.3.4").risk_score = none :=
  ⟨(C8_credential_failure_isolated Fixtures.env0 Fixtures.key_blank Fixtures.src_auth_ip
      "ip" "1.2.3.4" (by decide) (Or.inr (by decide)) (Or.inl (by decide))).1,
   (C8_credential_failure_isolated Fixtures.env0 Fixtures.key_blank Fixtures.src_auth_ip
      "ip" "1.2.3.4" (by decide) (Or.inr (by decide)) (Or.inl (by decide))).2.1⟩

/-- C9: when both cache tiers miss and the resolved fan-out list is empty,
`query_ioc` returns (without raising — the embedding is total) a
well-formed response whose only source result is the degraded
`source="system"`, `status="error"` record, and whose overall verdict is
null. -/
theorem C9_empty_source_set_degraded_result (env : Env) (u : String)
    (payload : IOCQueryRequest) (auto : Bool)
    (hr : env.redisGet = none) (hm : env.memGet = none)
    (hempty : IOCService.all_sources_to_query env.db payload.sources auto = []) :
    (IOCService.query_ioc env u payload auto).1 =
      { ioc_type := payload.ioc_type, ioc_value := payload.ioc_value,
        overall_risk := none,
        queried_sources := [IOCService.system_no_sources_result],
        queried_at := env.now } ∧
    (IOCService.query_ioc env u payload auto).1.queried_sources.length = 1 ∧
    (IOCService.query_ioc env u payload auto).1.overall_risk = none := by
  have hmain : (IOCService.query_ioc env u payload auto).1 =
      { ioc_type := payload.ioc_type, ioc_value := payload.ioc_value,
        overall_risk := none,
        queried_sources := [IOCService.system_no_sources_result],
        queried_at := env.now } := by
    unfold IOCService.query_ioc
    rw [hr, hm]
    simp [hempty]
  refine ⟨hmain, ?_, ?_⟩ <;> simp [hmain]

/-- Witness for C9 at a concrete input: an empty registry. -/
theorem C9_empty_source_set_degraded_result_witness :
    (IOCService.query_ioc Fixtures.env0 "u1"
        { ioc_type := "ip", ioc_value := "8.8.8.8" } false).1 =
      { ioc_type := "ip", ioc_value := "8.8.8.8", overall_risk := none,
        queried_sources := [IOCService.system_no_sources_result],
        queried_at := Fixtures.env0.now } ∧
    (IOCService.query_ioc Fixtures.env0 "u1"
        { ioc_type := "ip", ioc_value := "8.8.8.8" } false).1.queried_sources.length = 1 ∧
    (IOCService.query_ioc Fixtures.env0 "u1"
        { ioc_type := "ip", ioc_value := "8.8.8.8" } false).1.overall_risk = none :=
  C9_empty_source_set_degraded_result Fixtures.env0 "u1"
    { ioc_type := "ip", ioc_value := "8.8.8.8" } false rfl rfl rfl

/-- Running operations that end in the single commit either fails somewhere
(leaving the committed rows untouched) or commits exactly the initial
pending rows plus every staged row. -/
theorem runOps_append_commit (fail : Option ℕ) (L : List DbOp)
    (hL : ∀ op ∈ L, op ≠ DbOp.commitOp) (s : DbSession) (i : ℕ) :
    (∃ s2, runOps fail (L ++ [DbOp.commitOp]) s i = Except.error s2 ∧
      s2.committed = s.committed) ∨
    runOps fail (L ++ [DbOp.commitOp]) s i =
      Except.ok ⟨s.committed ++ s.pending ++ IOCService.addedRows L, []⟩ := by
  induction L generalizing s i with
  | nil =>
    by_cases h : (fail == some i) = true
    · exact Or.inl ⟨s, by simp [runOps, h], rfl⟩
    · right
      simp [runOps, h, applyOp, IOCService.addedRows]
  | cons op L ih =>
    by_cases h : (fail == some i) = true
    · exact Or.inl ⟨s, by simp [runOps, h], rfl⟩
    · have hL2 : ∀ op2 ∈ L, op2 ≠ DbOp.commitOp :=
        fun op2 h2 => hL op2 (List.mem_cons_of_mem _ h2)
      have hstep : runOps fail ((op :: L) ++ [DbOp.commitOp]) s i =
          runOps fail (L ++ [DbOp.commitOp]) (applyOp op s) (i + 1) := by
        simp [runOps, h]
      rcases ih hL2 (applyOp op s) (i + 1) with ⟨s2, heq, hc⟩ | heq
      · refine Or.inl ⟨s2, by rw [hstep]; exact heq, ?_⟩
        rw [hc]
        cases op with
        | addRow r => rfl
        | flushOp => rfl
        | readOp => rfl
        | commitOp => exact absurd rfl (hL _ (List.mem_cons_self _ _))
      · right
        rw [hstep, heq]
        cases op with
        | addRow r => simp [applyOp, IOCService.addedRows]
        | flushOp => simp [applyOp, IOCService.addedRows]
        | readOp => simp [applyOp, IOCService.addedRows]
        | commitOp => exact absurd rfl (hL _ (List.mem_cons_self _ _))

/-- No staging operation is a commit. -/
theorem save_stage_ops_no_commit (db : Db) (u : String) (payload : IOCQueryRequest)
    (response : IOCQueryResponse) :
    ∀ op ∈ IOCService.save_stage_ops db u payload response, op ≠ DbOp.commitOp := by
  intro op hop
  simp only [IOCService.save_stage_ops, List.mem_append, List.mem_cons,
    List.not_mem_nil, or_false, List.mem_flatMap] at hop
  rcases hop with (rfl | rfl) | ⟨sr, hsr, h⟩
  · simp
  · simp
  · cases hf : db.sources.find? (fun s => s.name == sr.source) with
    | some x =>
      rw [hf] at h
      rcases (by simpa using h : op = DbOp.readOp ∨ op = DbOp.addRow _) with rfl | rfl <;> simp
    | none =>
      rw [hf] at h
      rw [show op = DbOp.readOp by simpa using h]
      simp

/-- The staged rows of the full operation list are those of its staging
prefix. -/
theorem saved_rows_eq_stage (db : Db) (u : String) (payload : IOCQueryRequest)
    (response : IOCQueryResponse) :
    IOCService.saved_rows db u payload response =
      IOCService.addedRows (IOCService.save_stage_ops db u payload response) := by
  simp [IOCService.saved_rows, IOCService.save_ops, IOCService.addedRows,
    List.filterMap_append]

/-- Rollback safety: `_save_query_to_db` is all-or-nothing: whatever operation fails, the
rollback leaves nothing pending and the committed rows are either untouched
or extended by exactly the rows of this query. -/
theorem save_query_to_db_atomic (env : Env) (s0 : DbSession) (u : String)
    (payload : IOCQueryRequest) (response : IOCQueryResponse)
    (hpend : s0.pending = []) :
    (IOCService.save_query_to_db env s0 u payload response).pending = [] ∧
    ((IOCService.save_query_to_db env s0 u payload response).committed = s0.committed ∨
      (IOCService.save_query_to_db env s0 u payload response).committed =
        s0.committed ++ IOCService.saved_rows env.db u payload response) := by
  unfold IOCService.save_query_to_db IOCService.save_ops
  rcases runOps_append_commit env.saveFail
      (IOCService.save_stage_ops env.db u payload response)
      (save_stage_ops_no_commit env.db u payload response) s0 0 with ⟨s2, heq, hc⟩ | heq
  · rw [heq]
    exact ⟨rfl, Or.inl hc⟩
  · rw [heq]
    refine ⟨rfl, Or.inr ?_⟩
    rw [saved_rows_eq_stage, hpend]
    simp

/-- C10 (implicit): if persisting the query or any of its per-source rows
fails at any operation, the transaction is rolled back — nothing of this
query remains pending and the committed rows are untouched (otherwise they
are extended by exactly the rows of this query); the failure is caught, and the
already-computed response is returned unchanged whatever the failure
schedule. -/
theorem C10_persistence_failure_safe (env : Env) (u : String)
    (payload : IOCQueryRequest) (auto : Bool)
    (hpend : env.dbSession.pending = []) :
    (IOCService.query_ioc env u payload auto).2.pending = [] ∧
    ((IOCService.query_ioc env u payload auto).2.committed = env.dbSession.committed ∨
      (IOCService.query_ioc env u payload auto).2.committed =
        env.dbSession.committed ++
          IOCService.saved_rows env.db u payload (IOCService.query_ioc env u payload auto).1) ∧
    (∀ f, (IOCService.query_ioc { env with saveFail := f } u payload auto).1 =
      (IOCService.query_ioc env u payload auto).1) := by
  refine ⟨?_, ?_, ?_⟩
  · unfold IOCService.query_ioc
    cases hr : env.redisGet with
    | some cached => simp only [hr]; exact hpend
    | none =>
      cases hm : env.memGet with
      | some cached => simp only [hr, hm]; exact hpend
      | none =>
        simp only [hr, hm]
        split
        · exact hpend
        · exact (save_query_to_db_atomic env env.dbSession u payload _ hpend).1
  · unfold IOCService.query_ioc
    cases hr : env.redisGet with
    | some cached => simp only [hr]; exact Or.inl trivial
    | none =>
      cases hm : env.memGet with
      | some cached => simp only [hr, hm]; exact Or.inl trivial
      | none =>
        simp only [hr, hm]
        split
        · exact Or.inl rfl
        · exact (save_query_to_db_atomic env env.dbSession u payload _ hpend).2
  · intro f
    unfold IOCService.query_ioc
    cases hr : env.redisGet with
    | some cached => simp only [hr]
    | none =>
      cases hm : env.memGet with
      | some cached => simp only [hr, hm]
      | none =>
        simp only [hr, hm]
        split <;> rfl

/-- Witness for C10 at a concrete input: the fixture environment (empty
session) with an arbitrary failing operation index. -/
theorem C10_persistence_failure_safe_witness :
    (IOCService.query_ioc Fixtures.env1 "u1"
        { ioc_type := "ip", ioc_value := "8.8.8.8" } false).2.pending = [] ∧
    ((IOCService.query_ioc Fixtures.env1 "u1"
        { ioc_type := "ip", ioc_value := "8.8.8.8" } false).2.committed =
          Fixtures.env1.dbSession.committed ∨
      (IOCService.query_ioc Fixtures.env1 "u1"
          { ioc_type := "ip", ioc_value := "8.8.8.8" } false).2.committed =
        Fixtures.env1.dbSession.committed ++
          IOCService.saved_rows Fixtures.env1.db "u1"
            { ioc_type := "ip", ioc_value := "8.8.8.8" }
            (IOCService.query_ioc Fixtures.env1 "u1"
              { ioc_type := "ip", ioc_value := "8.8.8.8" } false).1) ∧
    (∀ f, (IOCService.query_ioc { Fixtures.env1 with saveFail := f } "u1"
        { ioc_type := "ip", ioc_value := "8.8.8.8" } false).1 =
      (IOCService.query_ioc Fixtures.env1 "u1"
        { ioc_type := "ip", ioc_value := "8.8.8.8" } false).1) :=
  C10_persistence_failure_safe Fixtures.env1 "u1"
    { ioc_type := "ip", ioc_value := "8.8.8.8" } false rfl
